import Mathlib

/-!
Shallow embedding of the tracking server (src/server.js, src/init-db.js):
event ingestion handlers, the SQLite-backed store, the anomaly detector
`checkForAnomalies`, and the alert/incident listings.

Modelling conventions:
* JS strings are `String`; a possibly-`undefined`/`null` JS value is `Option String`
  (`none` = absent).  JS truthiness for strings (`undefined`, `null` and `""` are
  falsy) is captured by `strOr` / `strOrNull`.
* ISO-8601 timestamp strings are modelled by their epoch-millisecond value as an
  `Int` (`new Date(ms).toISOString()` / `new Date(iso).getTime()` is an exact
  round trip at millisecond granularity).  `new Date(n)` is an Invalid Date when
  `|n| > 8.64e15`, and `toISOString` then throws: `dateValidMs` models this.
* SQLite writes (`better-sqlite3`, synchronous) are `Except Unit (record × Store)`:
  binding an `undefined` value throws, and a duplicate primary key throws;
  either way nothing is written.  A throw escapes the Express handler, which
  then answers with the framework's default 500 page (`Response.serverError`).
  The code itself never produces a 4xx (`Response.clientError` exists in the
  response type only to state what the code does *not* do).
* `crypto.randomUUID()` results and `Date.now()` readings are inputs of each
  handler (`fresh…`, `now`).  The two `Date.now()` readings inside one request
  (event timestamp and the rapid-access window base) are modelled as the same
  instant.
* The geoip lookup (external collaborator per the spec) is a parameter
  `locate : String → Option String` producing the formatted location string;
  `Date.prototype.getHours` is timezone dependent and is a parameter
  `getHours : Int → Int`.
* The `createdAt` column (SQL `DEFAULT CURRENT_TIMESTAMP`) is modelled by a
  strictly increasing insertion counter `Store.nextSeq`.
-/

namespace Vittal

/-- JS `a || b` for a possibly-absent string: `undefined`, `null` and `""` are falsy. -/
def strOr (a : Option String) (d : String) : String :=
  match a with
  | some s => if s = "" then d else s
  | none => d

/-- JS `a || null`: `undefined` and `""` collapse to `null`. -/
def strOrNull (a : Option String) : Option String :=
  match a with
  | some s => if s = "" then none else some s
  | none => none

/-- JS template-literal interpolation of a possibly-missing string value;
`whenNone` is `"null"` or `"undefined"` depending on which JS value is absent. -/
def jsStr (v : Option String) (whenNone : String) : String :=
  match v with
  | some s => s
  | none => whenNone

/-- JS `String.prototype.includes` (substring containment). -/
def jsIncludesSub (s sub : String) : Bool :=
  (s.splitOn sub).length > 1

/-- `parseBrowserInfo` from src/server.js (lines 58-67). -/
def parseBrowserInfo (userAgent : Option String) : String :=
  match userAgent with
  | none => "Unknown"
  | some ua =>
    if ua = "" then "Unknown"
    else if jsIncludesSub ua "Chrome" then "Chrome"
    else if jsIncludesSub ua "Safari" && !(jsIncludesSub ua "Chrome") then "Safari"
    else if jsIncludesSub ua "Firefox" then "Firefox"
    else if jsIncludesSub ua "Edge" then "Edge"
    else "Unknown"

/-- `getLocationFromIP` from src/server.js (lines 44-56); the geoip lookup is the
external collaborator `locate`, returning the already-formatted
`"city, country"` string (never empty in the real collaborator) or `none` on
lookup failure. -/
def getLocationFromIP (locate : String → Option String) (ip : String) : String :=
  if ip = "unknown" then "Unknown Location"
  else
    match locate ip with
    | some l => l
    | none => "Unknown Location"

/-! ## JS `parseInt` (used by the pixel endpoint for the `ts` query parameter) -/

/-- JS whitespace accepted by `parseInt` (space, tab, LF, CR, VT, FF, NBSP, BOM). -/
def isJsSpace (c : Char) : Bool :=
  c == ' ' || c == '\t' || c == '\n' || c == '\r' ||
  c.toNat == 11 || c.toNat == 12 || c.toNat == 160 || c.toNat == 65279

def decDigit (c : Char) : Option Nat :=
  if '0' ≤ c ∧ c ≤ '9' then some (c.toNat - 48) else none

def hexDigit (c : Char) : Option Nat :=
  if '0' ≤ c ∧ c ≤ '9' then some (c.toNat - 48)
  else if 'a' ≤ c ∧ c ≤ 'f' then some (c.toNat - 87)
  else if 'A' ≤ c ∧ c ≤ 'F' then some (c.toNat - 55)
  else none

/-- Value of the longest digit prefix (accumulator form). -/
def digitsVal (f : Char → Option Nat) (base : Nat) : List Char → Nat → Nat
  | [], acc => acc
  | c :: cs, acc =>
    match f c with
    | some d => digitsVal f base cs (acc * base + d)
    | none => acc

/-- Magnitude of the longest digit prefix; `none` when there is no leading digit. -/
def parseMag (f : Char → Option Nat) (base : Nat) (cs : List Char) : Option Nat :=
  match cs with
  | [] => none
  | c :: _ =>
    match f c with
    | some _ => some (digitsVal f base cs 0)
    | none => none

/-- JS `parseInt(x)` (no radix argument) on a possibly-absent string:
skip whitespace, optional sign, `0x`/`0X` hex prefix, longest digit prefix;
`none` models `NaN`.  Exact for results below 2^53 (the only inexact JS cases
are beyond `Date`'s valid range anyway). -/
def jsParseInt (s : Option String) : Option Int :=
  match s with
  | none => none
  | some str =>
    let cs := str.toList.dropWhile isJsSpace
    let signed : Bool × List Char :=
      match cs with
      | '-' :: rest => (true, rest)
      | '+' :: rest => (false, rest)
      | _ => (false, cs)
    let mag : Option Nat :=
      match signed.2 with
      | '0' :: 'x' :: rest => parseMag hexDigit 16 rest
      | '0' :: 'X' :: rest => parseMag hexDigit 16 rest
      | cs2 => parseMag decDigit 10 cs2
    match mag with
    | none => none
    | some m => some (if signed.1 then -(m : Int) else (m : Int))

/-- `new Date(t).toISOString()` succeeds iff `|t| ≤ 8.64e15` ms. -/
def dateValidMs (t : Int) : Bool := t.natAbs ≤ 8640000000000000

/-! ## Data model (src/init-db.js tables; src/server.js record builders) -/

/-- A persisted row of the `events` table.  `documentId`/`recipientId` are
`NOT NULL`; the nullable columns are `Option`.  The unused `city`/`country`
columns and the `createdAt` column (never read back for events) are omitted. -/
structure Event where
  id : String
  type : String
  documentId : String
  recipientId : String
  action : Option String
  pageNumber : Option Int
  timeSpent : Option Int
  timestamp : Int
  ipAddress : Option String
  location : Option String
  device : Option String
  userAgent : Option String
  risk : Option String
  watermarkId : Option String
  forwardedTo : Option String
  unauthorized : Bool
deriving DecidableEq, Repr

/-- The JS object a handler passes to `saveEvent` (fields may be `undefined`). -/
structure RawEvent where
  id : Option String := none
  type : String
  documentId : Option String := none
  recipientId : Option String := none
  action : Option String := none
  pageNumber : Option Int := none
  timeSpent : Option Int := none
  timestamp : Option Int := none
  ipAddress : Option String := none
  location : Option String := none
  device : Option String := none
  userAgent : Option String := none
  risk : Option String := none
  watermarkId : Option String := none
  forwardedTo : Option String := none
  unauthorized : Bool := false

/-- A persisted row of the `alerts` table. -/
structure Alert where
  id : String
  type : String
  severity : String
  message : String
  eventId : Option String
  documentId : Option String
  recipientId : Option String
  requiresAction : Bool
  createdAt : Nat
deriving DecidableEq, Repr

structure RawAlert where
  id : Option String := none
  type : String
  severity : String
  message : String
  eventId : Option String := none
  documentId : Option String := none
  recipientId : Option String := none
  requiresAction : Bool := false

/-- A persisted row of the `incidents` table. -/
structure Incident where
  id : String
  type : String
  severity : String
  documentId : String
  fromRecipient : Option String
  toRecipient : Option String
  status : String
  timestamp : Int
  createdAt : Nat
deriving DecidableEq, Repr

structure RawIncident where
  id : Option String := none
  type : String
  severity : String
  documentId : Option String := none
  fromRecipient : Option String := none
  toRecipient : Option String := none
  status : Option String := none
  timestamp : Option Int := none

/-- The durable SQLite state: the three tables written by the core, plus the
insertion counter modelling the `createdAt` clock. -/
structure Store where
  events : List Event
  alerts : List Alert
  incidents : List Incident
  nextSeq : Nat
deriving DecidableEq, Repr

def emptyStore : Store := { events := [], alerts := [], incidents := [], nextSeq := 0 }

def eventIds (s : Store) : List String := s.events.map (fun e => e.id)
def alertIds (s : Store) : List String := s.alerts.map (fun a => a.id)
def incidentIds (s : Store) : List String := s.incidents.map (fun i => i.id)

/-- The record `saveEvent` builds (src/server.js lines 91-108), for the case
where the `NOT NULL` columns `documentId`/`recipientId` are bindable. -/
def mkEventRecord (fresh : String) (now : Int) (ev : RawEvent) (d r : String) : Event :=
  { id := strOr ev.id fresh
    type := ev.type
    documentId := d
    recipientId := r
    action := strOrNull ev.action
    pageNumber := ev.pageNumber
    timeSpent := ev.timeSpent
    timestamp := ev.timestamp.getD now
    ipAddress := strOrNull ev.ipAddress
    location := strOrNull ev.location
    device := strOrNull ev.device
    userAgent := strOrNull ev.userAgent
    risk := strOrNull ev.risk
    watermarkId := strOrNull ev.watermarkId
    forwardedTo := strOrNull ev.forwardedTo
    unauthorized := ev.unauthorized }

/-- `saveEvent` from src/server.js (lines 89-112): build the record with the
JS defaulting rules, then `insertEventStmt.run(record)`.  The insert throws
(`.error`) when `documentId` or `recipientId` is `undefined` (unbindable) or
when the primary key `id` already exists; otherwise the row is appended.
`fresh` is the `crypto.randomUUID()` available at the call, `now` the clock
reading for the timestamp default; every caller in server.js supplies both
fields explicitly, so the defaults are dead paths kept for fidelity. -/
def saveEvent (fresh : String) (now : Int) (ev : RawEvent) (s : Store) :
    Except Unit (Event × Store) :=
  match ev.documentId, ev.recipientId with
  | some d, some r =>
    if strOr ev.id fresh ∈ eventIds s then .error ()
    else .ok (mkEventRecord fresh now ev d r,
      { s with events := s.events ++ [mkEventRecord fresh now ev d r] })
  | _, _ => .error ()

/-- The record `saveAlert` builds (src/server.js lines 123-132);
`seq` models the `createdAt` default clock. -/
def mkAlertRecord (fresh : String) (al : RawAlert) (seq : Nat) : Alert :=
  { id := strOr al.id fresh
    type := al.type
    severity := al.severity
    message := al.message
    eventId := strOrNull al.eventId
    documentId := strOrNull al.documentId
    recipientId := strOrNull al.recipientId
    requiresAction := al.requiresAction
    createdAt := seq }

/-- `saveAlert` from src/server.js (lines 122-135). -/
def saveAlert (fresh : String) (al : RawAlert) (s : Store) :
    Except Unit (Alert × Store) :=
  if strOr al.id fresh ∈ alertIds s then .error ()
  else .ok (mkAlertRecord fresh al s.nextSeq,
    { s with alerts := s.alerts ++ [mkAlertRecord fresh al s.nextSeq],
             nextSeq := s.nextSeq + 1 })

/-- The record `saveIncident` builds (src/server.js lines 148-157), for a
bindable `documentId`. -/
def mkIncidentRecord (fresh : String) (now : Int) (inc : RawIncident) (d : String)
    (seq : Nat) : Incident :=
  { id := strOr inc.id fresh
    type := inc.type
    severity := inc.severity
    documentId := d
    fromRecipient := strOrNull inc.fromRecipient
    toRecipient := strOrNull inc.toRecipient
    status := strOr inc.status "open"
    timestamp := inc.timestamp.getD now
    createdAt := seq }

/-- `saveIncident` from src/server.js (lines 147-160); `documentId` is passed
through raw (`NOT NULL`, unbindable when `undefined`). -/
def saveIncident (fresh : String) (now : Int) (inc : RawIncident) (s : Store) :
    Except Unit (Incident × Store) :=
  match inc.documentId with
  | some d =>
    if strOr inc.id fresh ∈ incidentIds s then .error ()
    else .ok (mkIncidentRecord fresh now inc d s.nextSeq,
      { s with incidents := s.incidents ++ [mkIncidentRecord fresh now inc d s.nextSeq],
               nextSeq := s.nextSeq + 1 })
  | none => .error ()

/-! ## Anomaly detector (`checkForAnomalies`, src/server.js lines 162-207) -/

structure Finding where
  type : String
  severity : String
  message : String
deriving DecidableEq, Repr

/-- `[...new Set(recipientEvents.map(e => e.location).filter(Boolean))]`:
the distinct non-empty locations of a history slice. -/
def jsTruthyLocations (recipientEvents : List Event) : List String :=
  ((recipientEvents.filterMap (fun e => e.location)).filter (fun l => !(l == ""))).dedup

/-- Check 1 (unusual location), src/server.js lines 169-177. -/
def locationFindings (recipientEvents : List Event) (e : Event) : List Finding :=
  let locations := jsTruthyLocations recipientEvents
  match e.location with
  | some l =>
    if locations.length > 3 ∧ l ≠ "" ∧ l ∉ locations then
      [{ type := "UNUSUAL_LOCATION", severity := "medium",
         message := "New location detected: " ++ l }]
    else []
  | none => []

/-- Check 2 (unusual time), src/server.js lines 179-187; `getHours` is the
timezone-dependent `new Date(ts).getHours()`. -/
def timeFindings (getHours : Int → Int) (e : Event) : List Finding :=
  let hour := getHours e.timestamp
  if hour < 6 ∨ hour > 22 then
    [{ type := "UNUSUAL_TIME", severity := "low",
       message := "Access at " ++ toString hour ++ ":00 - outside business hours" }]
  else []

/-- Check 3 (rapid access), src/server.js lines 189-202: all recipient events
with timestamp at least `now - 60000` (no upper bound in the source). -/
def rapidFindings (recipientEvents : List Event) (now : Int) : List Finding :=
  let oneMinuteAgo := now - 60000
  let recentEvents := recipientEvents.filter (fun e => decide (oneMinuteAgo ≤ e.timestamp))
  if 5 < recentEvents.length then
    [{ type := "RAPID_ACCESS", severity := "high",
       message := toString recentEvents.length ++
         " accesses in 1 minute - possible data exfiltration" }]
  else []

/-- `checkForAnomalies(event, recipientId)` (src/server.js lines 162-207):
reads the recipient's full history from the store at evaluation time and
runs the three independent checks in order. -/
def checkForAnomalies (getHours : Int → Int) (s : Store) (e : Event)
    (recipientId : String) (now : Int) : List Finding :=
  let recipientEvents := s.events.filter (fun ev => ev.recipientId == recipientId)
  locationFindings recipientEvents e ++ timeFindings getHours e ++
    rapidFindings recipientEvents now

/-- The recipient-history count the source's rapid-access check uses:
events for the recipient with timestamp ≥ now − 60000 (no upper bound). -/
def recentCount (s : Store) (recipientId : String) (now : Int) : Nat :=
  ((s.events.filter (fun ev => ev.recipientId == recipientId)).filter
    (fun e => decide (now - 60000 ≤ e.timestamp))).length

/-- Modelled from the spec: the number of a recipient's stored events whose
timestamp lies within the trailing 60-second window `[now − 60000, now]` of the
evaluation time (the spec's "within the trailing 60 seconds of now"). -/
def trailingWindowCount (s : Store) (recipientId : String) (now : Int) : Nat :=
  (s.events.filter (fun e =>
    e.recipientId == recipientId &&
    decide (now - 60000 ≤ e.timestamp) && decide (e.timestamp ≤ now))).length

/-! ## HTTP layer -/

/-- The outcomes an ingestion request can have.  `okJson` abstracts the JSON
success bodies; `pixelImage` carries exactly what `res.writeHead`/`res.end`
send on the pixel path; `serverError` is Express's default 500 answer to an
exception thrown inside a handler.  `clientError` (a 4xx) is never produced
by the code — it exists so that statements can distinguish it. -/
inductive Response where
  | okJson
  | pixelImage (status : Nat) (contentType : String) (cacheControl : String) (body : List Nat)
  | clientError
  | serverError
deriving DecidableEq, Repr

/-- Result of one handler run: the DB state afterwards, the HTTP response, the
findings produced by `checkForAnomalies` (empty when it was not invoked), how
many times `checkForAnomalies` was invoked, and the WebSocket broadcast
message types in order. -/
structure HandlerResult where
  store : Store
  response : Response
  findings : List Finding
  anomalyEvals : Nat
  broadcasts : List String
deriving Repr

/-- The 43-byte 1×1 transparent GIF from src/server.js lines 237-242. -/
def pixelBytes : List Nat :=
  [0x47, 0x49, 0x46, 0x38, 0x39, 0x61, 0x01, 0x00, 0x01, 0x00, 0x80, 0x00, 0x00,
   0xff, 0xff, 0xff, 0x00, 0x00, 0x00, 0x21, 0xf9, 0x04, 0x01, 0x0a, 0x00, 0x01,
   0x00, 0x2c, 0x00, 0x00, 0x00, 0x00, 0x01, 0x00, 0x01, 0x00, 0x00, 0x02, 0x02,
   0x4d, 0x01, 0x00, 0x3b]

/-- `new Date(parseInt(ts) || Date.now())` of the pixel endpoint:
`parseInt` results `NaN`, `0` and `-0` are falsy and fall back to the clock. -/
def pixelTimestamp (ts : Option String) (now : Int) : Int :=
  match jsParseInt ts with
  | some n => if n = 0 then now else n
  | none => now

structure OpenBody where
  documentId : Option String := none
  recipientId : Option String := none
  watermarkId : Option String := none

structure PageViewBody where
  documentId : Option String := none
  recipientId : Option String := none
  pageNumber : Option Int := none
  timeSpent : Option Int := none

structure TrackBody where
  documentId : Option String := none
  recipientId : Option String := none

structure ForwardBody where
  documentId : Option String := none
  recipientId : Option String := none
  forwardedTo : Option String := none

def failedResult (s : Store) : HandlerResult :=
  { store := s, response := .serverError, findings := [], anomalyEvals := 0, broadcasts := [] }

/-- `GET /api/track/pixel/:documentId/:recipientId` (src/server.js lines 214-249).
Path parameters are always present strings; `action` and `ts` are query
parameters.  The `toISOString()` on the (possibly client-supplied) timestamp
throws for out-of-range values, before `saveEvent`; an insert failure also
escapes the handler — in both cases the pixel is never written. -/
def pixelHandler (locate : String → Option String) (documentId recipientId : String)
    (action ts : Option String) (ip : String) (ua : Option String)
    (fresh : String) (now : Int) (s : Store) : HandlerResult :=
  let location := getLocationFromIP locate ip
  let t := pixelTimestamp ts now
  if dateValidMs t then
    match saveEvent fresh now
      { id := some fresh, type := "pixel_beacon", documentId := some documentId,
        recipientId := some recipientId, action := some (strOr action "viewed"),
        timestamp := some t, ipAddress := some ip, location := some location,
        device := some (parseBrowserInfo ua), userAgent := ua } s with
    | .ok (_, s1) =>
      { store := s1,
        response := .pixelImage 200 "image/gif" "no-cache, no-store, must-revalidate" pixelBytes,
        findings := [], anomalyEvals := 0, broadcasts := ["TRACKING_EVENT"] }
    | .error _ => failedResult s
  else failedResult s

/-- `POST /api/track/document-open` (src/server.js lines 252-276): persist, then
broadcast, then `checkForAnomalies(event, recipientId)` on the post-insert
store (the only call site of the detector in server.js).  In the success
branch the persisted `e.recipientId` equals the body's `recipientId`. -/
def documentOpenHandler (getHours : Int → Int) (locate : String → Option String)
    (body : OpenBody) (ip : String) (ua : Option String)
    (fresh : String) (now : Int) (s : Store) : HandlerResult :=
  let location := getLocationFromIP locate ip
  match saveEvent fresh now
    { id := some fresh, type := "document_opened", documentId := body.documentId,
      recipientId := body.recipientId, watermarkId := body.watermarkId,
      timestamp := some now, ipAddress := some ip, location := some location,
      device := some (parseBrowserInfo ua), userAgent := ua, risk := some "low" } s with
  | .ok (e, s1) =>
    let findings := checkForAnomalies getHours s1 e e.recipientId now
    { store := s1, response := .okJson, findings := findings, anomalyEvals := 1,
      broadcasts := ["DOCUMENT_OPENED"] ++
        (if findings.length > 0 then ["ANOMALY_DETECTED"] else []) }
  | .error _ => failedResult s

/-- `POST /api/track/page-view` (src/server.js lines 279-302). -/
def pageViewHandler (locate : String → Option String) (body : PageViewBody)
    (ip : String) (ua : Option String) (fresh : String) (now : Int) (s : Store) :
    HandlerResult :=
  let location := getLocationFromIP locate ip
  match saveEvent fresh now
    { id := some fresh, type := "page_viewed", documentId := body.documentId,
      recipientId := body.recipientId, pageNumber := body.pageNumber,
      timeSpent := body.timeSpent, timestamp := some now, ipAddress := some ip,
      location := some location, device := some (parseBrowserInfo ua),
      userAgent := ua } s with
  | .ok (_, s1) =>
    { store := s1, response := .okJson, findings := [], anomalyEvals := 0,
      broadcasts := ["PAGE_VIEWED"] }
  | .error _ => failedResult s

/-- `POST /api/track/download` (src/server.js lines 305-338): event then alert. -/
def downloadHandler (locate : String → Option String) (body : TrackBody)
    (ip : String) (ua : Option String) (fresh freshAlert : String) (now : Int)
    (s : Store) : HandlerResult :=
  let location := getLocationFromIP locate ip
  match saveEvent fresh now
    { id := some fresh, type := "document_downloaded", documentId := body.documentId,
      recipientId := body.recipientId, timestamp := some now, ipAddress := some ip,
      location := some location, device := some (parseBrowserInfo ua),
      userAgent := ua, risk := some "high" } s with
  | .ok (e, s1) =>
    match saveAlert freshAlert
      { id := some freshAlert, type := "HIGH_RISK_ACTION", severity := "high",
        message := "⬇️ Document downloaded from " ++ jsStr e.location "null",
        eventId := some e.id, documentId := body.documentId,
        recipientId := body.recipientId, requiresAction := false } s1 with
    | .ok (_, s2) =>
      { store := s2, response := .okJson, findings := [], anomalyEvals := 0,
        broadcasts := ["DOWNLOAD_ALERT"] }
    | .error _ => failedResult s1
  | .error _ => failedResult s

/-- `POST /api/track/print` (src/server.js lines 341-379): event then alert. -/
def printHandler (locate : String → Option String) (body : TrackBody)
    (ip : String) (ua : Option String) (fresh freshAlert : String) (now : Int)
    (s : Store) : HandlerResult :=
  let location := getLocationFromIP locate ip
  match saveEvent fresh now
    { id := some fresh, type := "document_printed", documentId := body.documentId,
      recipientId := body.recipientId, timestamp := some now, ipAddress := some ip,
      location := some location, device := some (parseBrowserInfo ua),
      userAgent := ua, risk := some "critical" } s with
  | .ok (e, s1) =>
    match saveAlert freshAlert
      { id := some freshAlert, type := "CRITICAL_ACTION", severity := "critical",
        message := "🚨 CRITICAL: Document printed! Physical leak possible!",
        eventId := some e.id, documentId := body.documentId,
        recipientId := body.recipientId, requiresAction := true } s1 with
    | .ok (_, s2) =>
      { store := s2, response := .okJson, findings := [], anomalyEvals := 0,
        broadcasts := ["CRITICAL_ALERT"] }
    | .error _ => failedResult s1
  | .error _ => failedResult s

/-- `POST /api/track/forward` (src/server.js lines 382-434): event, then
incident, then alert, in that order. -/
def forwardHandler (locate : String → Option String) (body : ForwardBody)
    (ip : String) (ua : Option String) (fresh freshIncident freshAlert : String)
    (now : Int) (s : Store) : HandlerResult :=
  let location := getLocationFromIP locate ip
  match saveEvent fresh now
    { id := some fresh, type := "document_forwarded", documentId := body.documentId,
      recipientId := body.recipientId, forwardedTo := body.forwardedTo,
      timestamp := some now, ipAddress := some ip, location := some location,
      device := some (parseBrowserInfo ua), userAgent := ua,
      risk := some "critical", unauthorized := true } s with
  | .ok (e, s1) =>
    match saveIncident freshIncident now
      { id := some freshIncident, type := "UNAUTHORIZED_FORWARDING",
        severity := "CRITICAL", documentId := body.documentId,
        fromRecipient := body.recipientId, toRecipient := body.forwardedTo,
        status := some "open", timestamp := some now } s1 with
    | .ok (_, s2) =>
      match saveAlert freshAlert
        { id := some freshAlert, type := "UNAUTHORIZED_SHARE", severity := "critical",
          message := "🚨 Document forwarded to: " ++ jsStr body.forwardedTo "undefined",
          eventId := some e.id, documentId := body.documentId,
          recipientId := body.recipientId, requiresAction := true } s2 with
      | .ok (_, s3) =>
        { store := s3, response := .okJson, findings := [], anomalyEvals := 0,
          broadcasts := ["UNAUTHORIZED_SHARE_ALERT"] }
      | .error _ => failedResult s2
    | .error _ => failedResult s1
  | .error _ => failedResult s

/-- `POST /api/track/copy` (src/server.js lines 437-459). -/
def copyHandler (locate : String → Option String) (body : TrackBody)
    (ip : String) (ua : Option String) (fresh : String) (now : Int) (s : Store) :
    HandlerResult :=
  let location := getLocationFromIP locate ip
  match saveEvent fresh now
    { id := some fresh, type := "copy_attempt", documentId := body.documentId,
      recipientId := body.recipientId, timestamp := some now, ipAddress := some ip,
      location := some location, device := some (parseBrowserInfo ua),
      userAgent := ua, risk := some "medium" } s with
  | .ok (_, s1) =>
    { store := s1, response := .okJson, findings := [], anomalyEvals := 0,
      broadcasts := ["COPY_DETECTED"] }
  | .error _ => failedResult s

/-! ## Query layer (read-only) -/

/-- The SQL ordering `ORDER BY createdAt DESC` on alerts. -/
def alertNewerFirst (a b : Alert) : Prop := b.createdAt ≤ a.createdAt

instance : DecidableRel alertNewerFirst := fun a b =>
  inferInstanceAs (Decidable (b.createdAt ≤ a.createdAt))

instance : IsTotal Alert alertNewerFirst := ⟨fun a b => Nat.le_total b.createdAt a.createdAt⟩

instance : IsTrans Alert alertNewerFirst :=
  ⟨fun _ _ _ hab hbc => Nat.le_trans hbc hab⟩

/-- The SQL ordering `ORDER BY timestamp DESC` on incidents (ISO strings sort
chronologically, i.e. by their epoch value). -/
def incidentNewerFirst (a b : Incident) : Prop := b.timestamp ≤ a.timestamp

instance : DecidableRel incidentNewerFirst := fun a b =>
  inferInstanceAs (Decidable (b.timestamp ≤ a.timestamp))

instance : IsTotal Incident incidentNewerFirst := ⟨fun a b => Int.le_total b.timestamp a.timestamp⟩

instance : IsTrans Incident incidentNewerFirst :=
  ⟨fun _ _ _ hab hbc => Int.le_trans hbc hab⟩

/-- `GET /api/alerts` (src/server.js lines 566-576):
`SELECT * FROM alerts ORDER BY createdAt DESC LIMIT 100`. -/
def getAlerts (s : Store) : List Alert :=
  (List.insertionSort alertNewerFirst s.alerts).take 100

/-- `GET /api/incidents` (src/server.js lines 579-589):
`SELECT * FROM incidents ORDER BY timestamp DESC` — note: no `LIMIT` clause. -/
def getIncidents (s : Store) : List Incident :=
  List.insertionSort incidentNewerFirst s.incidents

/-! ## The full operation surface (for the append-only invariant) -/

/-- Every operation of the core: the seven ingestion endpoints (with their
nondeterministic inputs made explicit) and the read-only query/subscription
endpoints of src/server.js. -/
inductive Op where
  | pixel (documentId recipientId : String) (action ts : Option String)
      (ip : String) (ua : Option String) (fresh : String) (now : Int)
  | docOpen (body : OpenBody) (ip : String) (ua : Option String) (fresh : String) (now : Int)
  | pageView (body : PageViewBody) (ip : String) (ua : Option String) (fresh : String) (now : Int)
  | download (body : TrackBody) (ip : String) (ua : Option String)
      (fresh freshAlert : String) (now : Int)
  | printDoc (body : TrackBody) (ip : String) (ua : Option String)
      (fresh freshAlert : String) (now : Int)
  | forward (body : ForwardBody) (ip : String) (ua : Option String)
      (fresh freshIncident freshAlert : String) (now : Int)
  | copyAttempt (body : TrackBody) (ip : String) (ua : Option String) (fresh : String) (now : Int)
  | documentEventsQuery (documentId : String)
  | recipientEventsQuery (recipientId : String)
  | trackingSummaryQuery (documentId : String)
  | emailsQuery
  | alertsQuery
  | incidentsQuery
  | healthQuery
  | subscribe

/-- State effect of each operation.  The query and subscription endpoints run
only `SELECT` statements (src/server.js lines 461-648) and leave the store
unchanged. -/
def applyOp (getHours : Int → Int) (locate : String → Option String) :
    Op → Store → Store
  | .pixel d r a t ip ua f now, s => (pixelHandler locate d r a t ip ua f now s).store
  | .docOpen b ip ua f now, s => (documentOpenHandler getHours locate b ip ua f now s).store
  | .pageView b ip ua f now, s => (pageViewHandler locate b ip ua f now s).store
  | .download b ip ua f fa now, s => (downloadHandler locate b ip ua f fa now s).store
  | .printDoc b ip ua f fa now, s => (printHandler locate b ip ua f fa now s).store
  | .forward b ip ua f fi fa now, s => (forwardHandler locate b ip ua f fi fa now s).store
  | .copyAttempt b ip ua f now, s => (copyHandler locate b ip ua f now s).store
  | .documentEventsQuery _, s => s
  | .recipientEventsQuery _, s => s
  | .trackingSummaryQuery _, s => s
  | .emailsQuery, s => s
  | .alertsQuery, s => s
  | .incidentsQuery, s => s
  | .healthQuery, s => s
  | .subscribe, s => s

/-- The risk tier the spec's table assigns to each event type
(`none` for types the code stores with a NULL risk). -/
def riskOf : String → Option String
  | "document_opened" => some "low"
  | "copy_attempt" => some "medium"
  | "document_downloaded" => some "high"
  | "document_printed" => some "critical"
  | "document_forwarded" => some "critical"
  | _ => none

/-- The events a handler run appended to the store. -/
def appendedEvents (res : HandlerResult) (s : Store) : List Event :=
  res.store.events.drop s.events.length

/-! ## Concrete environments used by witnesses and counterexamples -/

/-- A daytime `getHours` environment (every timestamp maps to hour 12). -/
def ghDay : Int → Int := fun _ => 12

/-- A geoip collaborator resolving every IP to one fixed location. -/
def locNY : String → Option String := fun _ => some "New York, US"

/-! ## Inversion lemmas for the persistence layer -/

theorem strOr_some_self (x : String) : strOr (some x) x = x := by
  simp [strOr]

theorem saveEvent_ok_record {fresh : String} {now : Int} {ev : RawEvent} {s : Store}
    {e : Event} {s1 : Store} (h : saveEvent fresh now ev s = .ok (e, s1)) :
    s1 = { s with events := s.events ++ [e] } ∧
    (∃ d r, ev.documentId = some d ∧ ev.recipientId = some r ∧
      e = mkEventRecord fresh now ev d r) ∧
    e.id ∉ eventIds s := by
  unfold saveEvent at h
  split at h
  · rename_i d r hd hr
    split at h
    · exact (Except.noConfusion h)
    · rename_i hid
      have hpair := Except.ok.inj h
      have he : mkEventRecord fresh now ev d r = e := congrArg Prod.fst hpair
      have hs : ({ s with events := s.events ++ [mkEventRecord fresh now ev d r] } : Store) = s1 :=
        congrArg Prod.snd hpair
      subst he
      subst hs
      exact ⟨rfl, ⟨d, r, hd, hr, rfl⟩, hid⟩
  · exact (Except.noConfusion h)

theorem saveEvent_ok_of {ev : RawEvent} (fresh : String) (now : Int) (s : Store)
    (d r : String) (hd : ev.documentId = some d) (hr : ev.recipientId = some r)
    (hid : strOr ev.id fresh ∉ eventIds s) :
    saveEvent fresh now ev s = .ok (mkEventRecord fresh now ev d r,
      { s with events := s.events ++ [mkEventRecord fresh now ev d r] }) := by
  unfold saveEvent
  rw [hd, hr]
  simp only [if_neg hid]

theorem saveAlert_ok_record {fresh : String} {al : RawAlert} {s : Store}
    {a : Alert} {s1 : Store} (h : saveAlert fresh al s = .ok (a, s1)) :
    s1 = { s with alerts := s.alerts ++ [a], nextSeq := s.nextSeq + 1 } ∧
    a = mkAlertRecord fresh al s.nextSeq := by
  unfold saveAlert at h
  split at h
  · exact (Except.noConfusion h)
  · have hpair := Except.ok.inj h
    have ha : mkAlertRecord fresh al s.nextSeq = a := congrArg Prod.fst hpair
    have hs :
        ({ s with alerts := s.alerts ++ [mkAlertRecord fresh al s.nextSeq],
                  nextSeq := s.nextSeq + 1 } : Store) = s1 := congrArg Prod.snd hpair
    subst ha
    subst hs
    exact ⟨rfl, rfl⟩

theorem saveAlert_ok_of (fresh : String) (al : RawAlert) (s : Store)
    (hid : strOr al.id fresh ∉ alertIds s) :
    saveAlert fresh al s = .ok (mkAlertRecord fresh al s.nextSeq,
      { s with alerts := s.alerts ++ [mkAlertRecord fresh al s.nextSeq],
               nextSeq := s.nextSeq + 1 }) := by
  unfold saveAlert
  simp only [if_neg hid]

theorem saveIncident_ok_record {fresh : String} {now : Int} {inc : RawIncident} {s : Store}
    {i : Incident} {s1 : Store} (h : saveIncident fresh now inc s = .ok (i, s1)) :
    s1 = { s with incidents := s.incidents ++ [i], nextSeq := s.nextSeq + 1 } ∧
    ∃ d, inc.documentId = some d ∧ i = mkIncidentRecord fresh now inc d s.nextSeq := by
  unfold saveIncident at h
  split at h
  · rename_i d hd
    split at h
    · exact (Except.noConfusion h)
    · have hpair := Except.ok.inj h
      have hi : mkIncidentRecord fresh now inc d s.nextSeq = i := congrArg Prod.fst hpair
      have hs :
          ({ s with incidents := s.incidents ++ [mkIncidentRecord fresh now inc d s.nextSeq],
                    nextSeq := s.nextSeq + 1 } : Store) = s1 := congrArg Prod.snd hpair
      subst hi
      subst hs
      exact ⟨rfl, d, hd, rfl⟩
  · exact (Except.noConfusion h)

theorem saveIncident_ok_of {inc : RawIncident} (fresh : String) (now : Int) (s : Store)
    (d : String) (hd : inc.documentId = some d)
    (hid : strOr inc.id fresh ∉ incidentIds s) :
    saveIncident fresh now inc s = .ok (mkIncidentRecord fresh now inc d s.nextSeq,
      { s with incidents := s.incidents ++ [mkIncidentRecord fresh now inc d s.nextSeq],
               nextSeq := s.nextSeq + 1 }) := by
  unfold saveIncident
  rw [hd]
  simp only [if_neg hid]

/-! ## Per-handler append-only lemmas -/

theorem pixelHandler_events (lc : String → Option String) (d r : String)
    (a t : Option String) (ip : String) (ua : Option String) (f : String) (now : Int)
    (s : Store) :
    ∃ tl, (pixelHandler lc d r a t ip ua f now s).store.events = s.events ++ tl := by
  simp only [pixelHandler]
  split
  · split
    · rename_i e s1 heq
      obtain ⟨hs1, _, _⟩ := saveEvent_ok_record heq
      subst hs1
      exact ⟨[e], rfl⟩
    · exact ⟨[], by simp [failedResult]⟩
  · exact ⟨[], by simp [failedResult]⟩

theorem documentOpenHandler_events (gh : Int → Int) (lc : String → Option String)
    (b : OpenBody) (ip : String) (ua : Option String) (f : String) (now : Int) (s : Store) :
    ∃ tl, (documentOpenHandler gh lc b ip ua f now s).store.events = s.events ++ tl := by
  simp only [documentOpenHandler]
  split
  · rename_i e s1 heq
    obtain ⟨hs1, _, _⟩ := saveEvent_ok_record heq
    subst hs1
    exact ⟨[e], rfl⟩
  · exact ⟨[], by simp [failedResult]⟩

theorem pageViewHandler_events (lc : String → Option String) (b : PageViewBody)
    (ip : String) (ua : Option String) (f : String) (now : Int) (s : Store) :
    ∃ tl, (pageViewHandler lc b ip ua f now s).store.events = s.events ++ tl := by
  simp only [pageViewHandler]
  split
  · rename_i e s1 heq
    obtain ⟨hs1, _, _⟩ := saveEvent_ok_record heq
    subst hs1
    exact ⟨[e], rfl⟩
  · exact ⟨[], by simp [failedResult]⟩

theorem downloadHandler_events (lc : String → Option String) (b : TrackBody)
    (ip : String) (ua : Option String) (f fa : String) (now : Int) (s : Store) :
    ∃ tl, (downloadHandler lc b ip ua f fa now s).store.events = s.events ++ tl := by
  simp only [downloadHandler]
  split
  · rename_i e s1 heq
    obtain ⟨hs1, _, _⟩ := saveEvent_ok_record heq
    subst hs1
    split
    · rename_i a s2 haeq
      obtain ⟨hs2, _⟩ := saveAlert_ok_record haeq
      subst hs2
      exact ⟨[e], rfl⟩
    · exact ⟨[e], by simp [failedResult]⟩
  · exact ⟨[], by simp [failedResult]⟩

theorem printHandler_events (lc : String → Option String) (b : TrackBody)
    (ip : String) (ua : Option String) (f fa : String) (now : Int) (s : Store) :
    ∃ tl, (printHandler lc b ip ua f fa now s).store.events = s.events ++ tl := by
  simp only [printHandler]
  split
  · rename_i e s1 heq
    obtain ⟨hs1, _, _⟩ := saveEvent_ok_record heq
    subst hs1
    split
    · rename_i a s2 haeq
      obtain ⟨hs2, _⟩ := saveAlert_ok_record haeq
      subst hs2
      exact ⟨[e], rfl⟩
    · exact ⟨[e], by simp [failedResult]⟩
  · exact ⟨[], by simp [failedResult]⟩

theorem forwardHandler_events (lc : String → Option String) (b : ForwardBody)
    (ip : String) (ua : Option String) (f fi fa : String) (now : Int) (s : Store) :
    ∃ tl, (forwardHandler lc b ip ua f fi fa now s).store.events = s.events ++ tl := by
  simp only [forwardHandler]
  split
  · rename_i e s1 heq
    obtain ⟨hs1, _, _⟩ := saveEvent_ok_record heq
    subst hs1
    split
    · rename_i i s2 hieq
      obtain ⟨hs2, _⟩ := saveIncident_ok_record hieq
      subst hs2
      split
      · rename_i a s3 haeq
        obtain ⟨hs3, _⟩ := saveAlert_ok_record haeq
        subst hs3
        exact ⟨[e], rfl⟩
      · exact ⟨[e], by simp [failedResult]⟩
    · exact ⟨[e], by simp [failedResult]⟩
  · exact ⟨[], by simp [failedResult]⟩

theorem copyHandler_events (lc : String → Option String) (b : TrackBody)
    (ip : String) (ua : Option String) (f : String) (now : Int) (s : Store) :
    ∃ tl, (copyHandler lc b ip ua f now s).store.events = s.events ++ tl := by
  simp only [copyHandler]
  split
  · rename_i e s1 heq
    obtain ⟨hs1, _, _⟩ := saveEvent_ok_record heq
    subst hs1
    exact ⟨[e], rfl⟩
  · exact ⟨[], by simp [failedResult]⟩

/-! ## Lemmas about the three anomaly checks -/

theorem mem_locationFindings_type {l : List Event} {e : Event} {f : Finding}
    (h : f ∈ locationFindings l e) : f.type = "UNUSUAL_LOCATION" := by
  simp only [locationFindings] at h
  split at h
  · split at h
    · rw [List.mem_singleton] at h
      subst h
      rfl
    · exact absurd h (List.not_mem_nil f)
  · exact absurd h (List.not_mem_nil f)

theorem mem_timeFindings_type {gh : Int → Int} {e : Event} {f : Finding}
    (h : f ∈ timeFindings gh e) : f.type = "UNUSUAL_TIME" := by
  simp only [timeFindings] at h
  split at h
  · rw [List.mem_singleton] at h
    subst h
    rfl
  · exact absurd h (List.not_mem_nil f)

theorem rapid_mem_iff (l : List Event) (now : Int) :
    (∃ f ∈ rapidFindings l now, f.type = "RAPID_ACCESS") ↔
      5 < (l.filter (fun e => decide (now - 60000 ≤ e.timestamp))).length := by
  simp only [rapidFindings]
  split
  · rename_i hcond
    constructor
    · intro _
      exact hcond
    · intro _
      exact ⟨_, List.mem_singleton.2 rfl, rfl⟩
  · rename_i hcond
    constructor
    · rintro ⟨f, hf, _⟩
      exact absurd hf (List.not_mem_nil f)
    · intro h
      exact absurd h hcond

theorem mem_jsTruthyLocations {l : List Event} {e : Event} {x : String}
    (hm : e ∈ l) (hl : e.location = some x) (hx : x ≠ "") :
    x ∈ jsTruthyLocations l := by
  unfold jsTruthyLocations
  rw [List.mem_dedup]
  refine List.mem_filter.2 ⟨List.mem_filterMap.2 ⟨e, hm, hl⟩, ?_⟩
  simp [hx]

/-- If the evaluated event itself is part of the history slice, the unusual
location rule cannot fire: its own location is among the distinct locations. -/
theorem locationFindings_of_mem {l : List Event} {e : Event} (hm : e ∈ l) :
    locationFindings l e = [] := by
  simp only [locationFindings]
  split
  · rename_i x hl
    split
    · rename_i hcond
      exact absurd (mem_jsTruthyLocations hm hl hcond.2.1) hcond.2.2
    · rfl
  · rfl

/-! ## Claim theorems -/

/-- Claim C9: for every operation of the core — the seven ingestion endpoints
and the read-only query/subscription endpoints — the events table of the
resulting store is an append-only extension of the previous one: no persisted
Event is ever mutated or deleted. -/
theorem events_append_only (gh : Int → Int) (lc : String → Option String)
    (op : Op) (s : Store) :
    ∃ tl, (applyOp gh lc op s).events = s.events ++ tl := by
  cases op with
  | pixel d r a t ip ua f now => exact pixelHandler_events lc d r a t ip ua f now s
  | docOpen b ip ua f now => exact documentOpenHandler_events gh lc b ip ua f now s
  | pageView b ip ua f now => exact pageViewHandler_events lc b ip ua f now s
  | download b ip ua f fa now => exact downloadHandler_events lc b ip ua f fa now s
  | printDoc b ip ua f fa now => exact printHandler_events lc b ip ua f fa now s
  | forward b ip ua f fi fa now => exact forwardHandler_events lc b ip ua f fi fa now s
  | copyAttempt b ip ua f now => exact copyHandler_events lc b ip ua f now s
  | documentEventsQuery d => exact ⟨[], by simp [applyOp]⟩
  | recipientEventsQuery r => exact ⟨[], by simp [applyOp]⟩
  | trackingSummaryQuery d => exact ⟨[], by simp [applyOp]⟩
  | emailsQuery => exact ⟨[], by simp [applyOp]⟩
  | alertsQuery => exact ⟨[], by simp [applyOp]⟩
  | incidentsQuery => exact ⟨[], by simp [applyOp]⟩
  | healthQuery => exact ⟨[], by simp [applyOp]⟩
  | subscribe => exact ⟨[], by simp [applyOp]⟩

/-- Claim C4: for every ingestion handler and all request inputs, every event
the handler persists carries exactly the risk tier determined by its type
(document_opened→low, copy_attempt→medium, document_downloaded→high,
document_printed→critical, document_forwarded→critical, pixel_beacon and
page_viewed→none); no other input influences the stored risk. -/
theorem risk_is_pure_function_of_type :
    (∀ lc d r a t ip ua f now s,
      ((appendedEvents (pixelHandler lc d r a t ip ua f now s) s).all
        (fun e => e.risk == riskOf e.type)) = true) ∧
    (∀ gh lc b ip ua f now s,
      ((appendedEvents (documentOpenHandler gh lc b ip ua f now s) s).all
        (fun e => e.risk == riskOf e.type)) = true) ∧
    (∀ lc b ip ua f now s,
      ((appendedEvents (pageViewHandler lc b ip ua f now s) s).all
        (fun e => e.risk == riskOf e.type)) = true) ∧
    (∀ lc b ip ua f fa now s,
      ((appendedEvents (downloadHandler lc b ip ua f fa now s) s).all
        (fun e => e.risk == riskOf e.type)) = true) ∧
    (∀ lc b ip ua f fa now s,
      ((appendedEvents (printHandler lc b ip ua f fa now s) s).all
        (fun e => e.risk == riskOf e.type)) = true) ∧
    (∀ lc b ip ua f fi fa now s,
      ((appendedEvents (forwardHandler lc b ip ua f fi fa now s) s).all
        (fun e => e.risk == riskOf e.type)) = true) ∧
    (∀ lc b ip ua f now s,
      ((appendedEvents (copyHandler lc b ip ua f now s) s).all
        (fun e => e.risk == riskOf e.type)) = true) := by
  refine ⟨?_, ?_, ?_, ?_, ?_, ?_, ?_⟩
  · intro lc d r a t ip ua f now s
    simp only [appendedEvents, pixelHandler]
    split
    · split
      · rename_i e s1 heq
        obtain ⟨hs1, ⟨d2, r2, _, _, he⟩, _⟩ := saveEvent_ok_record heq
        subst hs1
        subst he
        rw [List.drop_left]
        rfl
      · simp [failedResult, List.drop_length]
    · simp [failedResult, List.drop_length]
  · intro gh lc b ip ua f now s
    simp only [appendedEvents, documentOpenHandler]
    split
    · rename_i e s1 heq
      obtain ⟨hs1, ⟨d2, r2, _, _, he⟩, _⟩ := saveEvent_ok_record heq
      subst hs1
      subst he
      rw [List.drop_left]
      rfl
    · simp [failedResult, List.drop_length]
  · intro lc b ip ua f now s
    simp only [appendedEvents, pageViewHandler]
    split
    · rename_i e s1 heq
      obtain ⟨hs1, ⟨d2, r2, _, _, he⟩, _⟩ := saveEvent_ok_record heq
      subst hs1
      subst he
      rw [List.drop_left]
      rfl
    · simp [failedResult, List.drop_length]
  · intro lc b ip ua f fa now s
    simp only [appendedEvents, downloadHandler]
    split
    · rename_i e s1 heq
      obtain ⟨hs1, ⟨d2, r2, _, _, he⟩, _⟩ := saveEvent_ok_record heq
      subst hs1
      split
      · rename_i a2 s2 haeq
        obtain ⟨hs2, _⟩ := saveAlert_ok_record haeq
        subst hs2
        subst he
        rw [List.drop_left]
        rfl
      · subst he
        simp only [failedResult]
        rw [List.drop_left]
        rfl
    · simp [failedResult, List.drop_length]
  · intro lc b ip ua f fa now s
    simp only [appendedEvents, printHandler]
    split
    · rename_i e s1 heq
      obtain ⟨hs1, ⟨d2, r2, _, _, he⟩, _⟩ := saveEvent_ok_record heq
      subst hs1
      split
      · rename_i a2 s2 haeq
        obtain ⟨hs2, _⟩ := saveAlert_ok_record haeq
        subst hs2
        subst he
        rw [List.drop_left]
        rfl
      · subst he
        simp only [failedResult]
        rw [List.drop_left]
        rfl
    · simp [failedResult, List.drop_length]
  · intro lc b ip ua f fi fa now s
    simp only [appendedEvents, forwardHandler]
    split
    · rename_i e s1 heq
      obtain ⟨hs1, ⟨d2, r2, _, _, he⟩, _⟩ := saveEvent_ok_record heq
      subst hs1
      split
      · rename_i i2 s2 hieq
        obtain ⟨hs2, _⟩ := saveIncident_ok_record hieq
        subst hs2
        split
        · rename_i a2 s3 haeq
          obtain ⟨hs3, _⟩ := saveAlert_ok_record haeq
          subst hs3
          subst he
          rw [List.drop_left]
          rfl
        · subst he
          simp only [failedResult]
          rw [List.drop_left]
          rfl
      · subst he
        simp only [failedResult]
        rw [List.drop_left]
        rfl
    · simp [failedResult, List.drop_length]
  · intro lc b ip ua f now s
    simp only [appendedEvents, copyHandler]
    split
    · rename_i e s1 heq
      obtain ⟨hs1, ⟨d2, r2, _, _, he⟩, _⟩ := saveEvent_ok_record heq
      subst hs1
      subst he
      rw [List.drop_left]
      rfl
    · simp [failedResult, List.drop_length]

/-- Claim C5 (amended): whenever the anomaly evaluation runs, it emits a
RAPID_ACCESS (severity high) finding iff strictly more than 5 of the
recipient's stored events have a timestamp at least `now − 60000` — the
source puts no upper bound on the window, so future-dated events count too. -/
theorem rapid_access_threshold (gh : Int → Int) (s : Store) (e : Event)
    (r : String) (now : Int) :
    (∃ f ∈ checkForAnomalies gh s e r now, f.type = "RAPID_ACCESS") ↔
      5 < recentCount s r now := by
  simp only [checkForAnomalies, recentCount]
  constructor
  · rintro ⟨f, hf, hty⟩
    rw [List.mem_append] at hf
    rcases hf with hf | hf
    · rw [List.mem_append] at hf
      rcases hf with hf | hf
      · exact absurd (mem_locationFindings_type hf ▸ hty) (by decide)
      · exact absurd (mem_timeFindings_type hf ▸ hty) (by decide)
    · exact (rapid_mem_iff _ now).1 ⟨f, hf, hty⟩
  · intro h
    obtain ⟨f, hf, hty⟩ := (rapid_mem_iff (s.events.filter
      (fun ev => ev.recipientId == r)) now).2 h
    exact ⟨f, List.mem_append.2 (Or.inr hf), hty⟩

/-- An event used by the C5 counterexample: recipient `"r"`, timestamp
2 000 000 ms (in the future relative to the evaluation time 1 000 000 used
there; such timestamps are reachable via the pixel endpoint's `ts` override). -/
def futureEvent (i : Nat) : Event :=
  { id := toString i, type := "pixel_beacon", documentId := "d", recipientId := "r",
    action := some "viewed", pageNumber := none, timeSpent := none, timestamp := 2000000,
    ipAddress := none, location := none, device := none, userAgent := none,
    risk := none, watermarkId := none, forwardedTo := none, unauthorized := false }

def futureStore : Store :=
  { events := (List.range 6).map futureEvent, alerts := [], incidents := [], nextSeq := 0 }

/-- Claim C5 counterexample: a recipient with 6 stored events, none of them
inside the trailing 60-second window `[now − 60s, now]` (all future-dated),
still triggers a RAPID_ACCESS finding — refuting "with 5 or fewer such events
it emits no RAPID_ACCESS finding". -/
theorem C5_counterexample :
    (∃ f ∈ checkForAnomalies ghDay futureStore (futureEvent 99) "r" 1000000,
      f.type = "RAPID_ACCESS") ∧
    trailingWindowCount futureStore "r" 1000000 = 0 := by
  constructor
  · decide
  · decide

/-- Claim C1 (code bug): on the document-open ingestion path — the only call
site of `checkForAnomalies` — the detector runs after the event is persisted
and its history query returns the new event too, so the event's own location
is always among the recipient's historical locations and an UNUSUAL_LOCATION
finding is never emitted, for any store and any request. -/
theorem unusual_location_never_on_ingestion (gh : Int → Int)
    (lc : String → Option String) (body : OpenBody) (ip : String) (ua : Option String)
    (fresh : String) (now : Int) (s : Store) :
    ((documentOpenHandler gh lc body ip ua fresh now s).findings.filter
      (fun f => f.type == "UNUSUAL_LOCATION")) = [] := by
  simp only [documentOpenHandler]
  split
  · rename_i e s1 heq
    obtain ⟨hs1, _, _⟩ := saveEvent_ok_record heq
    subst hs1
    simp only [checkForAnomalies]
    rw [List.filter_append, List.filter_append]
    have hm : e ∈ (s.events ++ [e]).filter (fun ev => ev.recipientId == e.recipientId) := by
      refine List.mem_filter.2 ⟨List.mem_append.2 (Or.inr (List.mem_singleton.2 rfl)), ?_⟩
      simp
    rw [locationFindings_of_mem hm]
    have h2 : (timeFindings gh e).filter (fun f => f.type == "UNUSUAL_LOCATION") = [] := by
      simp only [timeFindings]
      split
      · rfl
      · rfl
    have h3 : (rapidFindings ((s.events ++ [e]).filter
        (fun ev => ev.recipientId == e.recipientId)) now).filter
        (fun f => f.type == "UNUSUAL_LOCATION") = [] := by
      simp only [rapidFindings]
      split
      · rfl
      · rfl
    rw [h2, h3]
    rfl
  · simp [failedResult]

/-- Claim C3 (amended): the anomaly evaluation is invoked exactly once — after
the event is persisted — by the document-open handler, and never by any of the
other six ingestion handlers, whatever their inputs. -/
theorem anomaly_eval_only_document_open (gh : Int → Int) (lc : String → Option String)
    (ob : OpenBody) (d r : String) (ip : String) (ua : Option String)
    (fresh : String) (now : Int) (s : Store)
    (hd : ob.documentId = some d) (hr : ob.recipientId = some r)
    (hfresh : fresh ∉ eventIds s) :
    (documentOpenHandler gh lc ob ip ua fresh now s).anomalyEvals = 1 ∧
    (∀ d2 r2 a t ip2 ua2 f2 now2 s2,
      (pixelHandler lc d2 r2 a t ip2 ua2 f2 now2 s2).anomalyEvals = 0) ∧
    (∀ b ip2 ua2 f2 now2 s2,
      (pageViewHandler lc b ip2 ua2 f2 now2 s2).anomalyEvals = 0) ∧
    (∀ b ip2 ua2 f2 fa2 now2 s2,
      (downloadHandler lc b ip2 ua2 f2 fa2 now2 s2).anomalyEvals = 0) ∧
    (∀ b ip2 ua2 f2 fa2 now2 s2,
      (printHandler lc b ip2 ua2 f2 fa2 now2 s2).anomalyEvals = 0) ∧
    (∀ b ip2 ua2 f2 fi2 fa2 now2 s2,
      (forwardHandler lc b ip2 ua2 f2 fi2 fa2 now2 s2).anomalyEvals = 0) ∧
    (∀ b ip2 ua2 f2 now2 s2,
      (copyHandler lc b ip2 ua2 f2 now2 s2).anomalyEvals = 0) := by
  refine ⟨?_, ?_, ?_, ?_, ?_, ?_, ?_⟩
  · have hfresh' : strOr (some fresh) fresh ∉ eventIds s := by
      rwa [strOr_some_self]
    simp only [documentOpenHandler]
    split
    · rfl
    · rename_i heq
      rw [saveEvent_ok_of fresh now s d r hd hr hfresh'] at heq
      exact (Except.noConfusion heq)
  · intro d2 r2 a t ip2 ua2 f2 now2 s2
    simp only [pixelHandler]
    split
    · split <;> rfl
    · rfl
  · intro b ip2 ua2 f2 now2 s2
    simp only [pageViewHandler]
    split <;> rfl
  · intro b ip2 ua2 f2 fa2 now2 s2
    simp only [downloadHandler]
    split
    · split <;> rfl
    · rfl
  · intro b ip2 ua2 f2 fa2 now2 s2
    simp only [printHandler]
    split
    · split <;> rfl
    · rfl
  · intro b ip2 ua2 f2 fi2 fa2 now2 s2
    simp only [forwardHandler]
    split
    · split
      · split <;> rfl
      · rfl
    · rfl
  · intro b ip2 ua2 f2 now2 s2
    simp only [copyHandler]
    split <;> rfl

/-- Witness for the C3 amended theorem at a concrete successful
document-open request. -/
theorem C3_amended_witness :
    ("e1" ∉ eventIds emptyStore) ∧
    (documentOpenHandler ghDay locNY { documentId := some "d", recipientId := some "r" }
      "1.2.3.4" none "e1" 0 emptyStore).anomalyEvals = 1 := by
  refine ⟨by decide, ?_⟩
  exact (anomaly_eval_only_document_open ghDay locNY
    { documentId := some "d", recipientId := some "r" } "d" "r" "1.2.3.4" none "e1" 0
    emptyStore rfl rfl (by decide)).1

/-- Claim C3 counterexample: a successful download ingestion (the event is
persisted, the request succeeds) on which the anomaly evaluation is invoked
zero times, not once. -/
theorem C3_counterexample :
    (downloadHandler locNY { documentId := some "d", recipientId := some "r" }
      "1.2.3.4" none "e1" "a1" 0 emptyStore).response = Response.okJson ∧
    (downloadHandler locNY { documentId := some "d", recipientId := some "r" }
      "1.2.3.4" none "e1" "a1" 0 emptyStore).store.events.length = 1 ∧
    (downloadHandler locNY { documentId := some "d", recipientId := some "r" }
      "1.2.3.4" none "e1" "a1" 0 emptyStore).anomalyEvals = 0 := by
  exact ⟨rfl, rfl, rfl⟩

theorem strOrNull_some_ne {x : String} (h : x ≠ "") : strOrNull (some x) = some x := by
  simp [strOrNull, h]

theorem saveAlert_error_elim {fresh : String} {al : RawAlert} {s : Store}
    (h : saveAlert fresh al s = .error ()) : strOr al.id fresh ∈ alertIds s := by
  unfold saveAlert at h
  split at h
  · rename_i hc
    exact hc
  · exact (Except.noConfusion h)

theorem saveIncident_error_elim {fresh : String} {now : Int} {inc : RawIncident} {s : Store}
    (h : saveIncident fresh now inc s = .error ()) :
    inc.documentId = none ∨ strOr inc.id fresh ∈ incidentIds s := by
  unfold saveIncident at h
  split at h
  · split at h
    · rename_i hc
      exact Or.inr hc
    · exact (Except.noConfusion h)
  · rename_i hd
    exact Or.inl hd

/-- Claim C6 (amended): the alert listing is newest-first and capped at 100
records; the incident listing is newest-first but unbounded — it returns every
incident in the store (the incidents query has no LIMIT clause). -/
theorem alert_incident_listings (s : Store) :
    (getAlerts s).length ≤ 100 ∧
    List.Sorted alertNewerFirst (getAlerts s) ∧
    List.Sorted incidentNewerFirst (getIncidents s) ∧
    List.Perm (getIncidents s) s.incidents ∧
    (getIncidents s).length = s.incidents.length := by
  refine ⟨?_, ?_, ?_, ?_, ?_⟩
  · unfold getAlerts
    rw [List.length_take]
    exact min_le_left _ _
  · unfold getAlerts
    exact List.Pairwise.sublist (List.take_sublist _ _) (List.sorted_insertionSort _ _)
  · unfold getIncidents
    exact List.sorted_insertionSort _ _
  · unfold getIncidents
    exact List.perm_insertionSort _ _
  · exact (List.perm_insertionSort incidentNewerFirst s.incidents).length_eq

/-- A store holding 101 incidents (used by the C6 counterexample). -/
def manyIncidents : Store :=
  { events := [], alerts := [],
    incidents := (List.range 101).map (fun k =>
      { id := toString k, type := "UNAUTHORIZED_FORWARDING", severity := "CRITICAL",
        documentId := "d", fromRecipient := none, toRecipient := none,
        status := "open", timestamp := Int.ofNat k, createdAt := k }),
    nextSeq := 101 }

/-- Claim C6 counterexample: with 101 stored incidents the incident listing
returns all 101 records — refuting "each return at most 100 records". -/
theorem C6_counterexample : ¬ ((getIncidents manyIncidents).length ≤ 100) := by
  have hp := (List.perm_insertionSort incidentNewerFirst manyIncidents.incidents).length_eq
  have hlen : manyIncidents.incidents.length = 101 := by
    simp [manyIncidents]
  unfold getIncidents
  rw [hp, hlen]
  decide

/-- Claim C2 (amended): a `document_forwarded` ingestion whose three inserts
succeed creates exactly one Incident (UNAUTHORIZED_FORWARDING, severity
CRITICAL) and exactly one Alert (UNAUTHORIZED_SHARE, severity critical,
requiresAction true); the Incident's toRecipient always equals the event's
forwardedTo, and its fromRecipient equals the event's recipientId whenever the
recipientId is non-empty (an empty-string recipientId is stored verbatim on
the event but coerced to null on the incident). -/
theorem forward_creates_incident_and_alert
    (lc : String → Option String) (fb : ForwardBody) (d r : String)
    (ip : String) (ua : Option String) (fresh freshIncident freshAlert : String)
    (now : Int) (s : Store)
    (hd : fb.documentId = some d) (hr : fb.recipientId = some r)
    (hfresh : fresh ∉ eventIds s) (hfi : freshIncident ∉ incidentIds s)
    (hfa : freshAlert ∉ alertIds s) :
    ∃ e i a,
      (forwardHandler lc fb ip ua fresh freshIncident freshAlert now s).store.events
        = s.events ++ [e] ∧
      (forwardHandler lc fb ip ua fresh freshIncident freshAlert now s).store.incidents
        = s.incidents ++ [i] ∧
      (forwardHandler lc fb ip ua fresh freshIncident freshAlert now s).store.alerts
        = s.alerts ++ [a] ∧
      (forwardHandler lc fb ip ua fresh freshIncident freshAlert now s).response
        = Response.okJson ∧
      e.type = "document_forwarded" ∧ e.recipientId = r ∧
      i.type = "UNAUTHORIZED_FORWARDING" ∧ i.severity = "CRITICAL" ∧
      a.type = "UNAUTHORIZED_SHARE" ∧ a.severity = "critical" ∧ a.requiresAction = true ∧
      i.toRecipient = e.forwardedTo ∧
      i.fromRecipient = strOrNull fb.recipientId ∧
      (r ≠ "" → i.fromRecipient = some e.recipientId) := by
  have hfresh' : strOr (some fresh) fresh ∉ eventIds s := by rwa [strOr_some_self]
  simp only [forwardHandler]
  split
  · rename_i e s1 heq
    obtain ⟨hs1, ⟨d2, r2, hd2, hr2, he⟩, _⟩ := saveEvent_ok_record heq
    rw [hd] at hd2
    rw [hr] at hr2
    obtain rfl : d = d2 := Option.some.inj hd2
    obtain rfl : r = r2 := Option.some.inj hr2
    subst hs1
    split
    · rename_i i s2 hieq
      obtain ⟨hs2, d3, hd3, hi⟩ := saveIncident_ok_record hieq
      subst hs2
      split
      · rename_i a s3 haeq
        obtain ⟨hs3, ha⟩ := saveAlert_ok_record haeq
        subst hs3
        subst he
        subst hi
        subst ha
        refine ⟨_, _, _, rfl, rfl, rfl, rfl, rfl, rfl, rfl, rfl, rfl, rfl, rfl, rfl, rfl, ?_⟩
        intro hne
        show strOrNull fb.recipientId = some r
        rw [hr]
        exact strOrNull_some_ne hne
      · rename_i haeq
        have hmem := saveAlert_error_elim haeq
        rw [strOr_some_self] at hmem
        exact absurd hmem hfa
    · rename_i hieq
      rcases saveIncident_error_elim hieq with hnone | hmem
      · rw [hd] at hnone
        exact (Option.noConfusion hnone)
      · rw [strOr_some_self] at hmem
        exact absurd hmem hfi
  · rename_i heq
    rw [saveEvent_ok_of fresh now s d r hd hr hfresh'] at heq
    exact (Except.noConfusion heq)

/-- Witness for the C2 amended theorem at a concrete successful forward
ingestion. -/
theorem C2_amended_witness :
    ("e1" ∉ eventIds emptyStore) ∧ ("i1" ∉ incidentIds emptyStore) ∧
    ("a1" ∉ alertIds emptyStore) ∧
    (∃ e i a,
      (forwardHandler locNY (⟨some "doc", some "alice", some "bob"⟩ : ForwardBody) "1.2.3.4" none "e1" "i1" "a1" 0
          emptyStore).store.events = emptyStore.events ++ [e] ∧
      (forwardHandler locNY (⟨some "doc", some "alice", some "bob"⟩ : ForwardBody) "1.2.3.4" none "e1" "i1" "a1" 0
          emptyStore).store.incidents = emptyStore.incidents ++ [i] ∧
      (forwardHandler locNY (⟨some "doc", some "alice", some "bob"⟩ : ForwardBody) "1.2.3.4" none "e1" "i1" "a1" 0
          emptyStore).store.alerts = emptyStore.alerts ++ [a] ∧
      (forwardHandler locNY (⟨some "doc", some "alice", some "bob"⟩ : ForwardBody) "1.2.3.4" none "e1" "i1" "a1" 0
          emptyStore).response = Response.okJson ∧
      e.type = "document_forwarded" ∧ e.recipientId = "alice" ∧
      i.type = "UNAUTHORIZED_FORWARDING" ∧ i.severity = "CRITICAL" ∧
      a.type = "UNAUTHORIZED_SHARE" ∧ a.severity = "critical" ∧ a.requiresAction = true ∧
      i.toRecipient = e.forwardedTo ∧
      i.fromRecipient = strOrNull (⟨some "doc", some "alice", some "bob"⟩ : ForwardBody).recipientId ∧
      ("alice" ≠ "" → i.fromRecipient = some e.recipientId)) :=
  ⟨by decide, by decide, by decide,
    forward_creates_incident_and_alert locNY
      (⟨some "doc", some "alice", some "bob"⟩ : ForwardBody)
      "doc" "alice" "1.2.3.4" none "e1" "i1" "a1" 0 emptyStore rfl rfl
      (by decide) (by decide) (by decide)⟩

/-- Claim C2 counterexample: a forward ingestion with an empty-string
recipientId succeeds, but the created Incident's fromRecipient is null while
the persisted event's recipientId is the empty string — they are not equal. -/
theorem C2_counterexample :
    ((forwardHandler locNY (⟨some "doc", some "", some "bob"⟩ : ForwardBody) "1.2.3.4" none "e1" "i1" "a1" 0
        emptyStore).store.incidents.map (fun i => i.fromRecipient)) = [none] ∧
    ((forwardHandler locNY (⟨some "doc", some "", some "bob"⟩ : ForwardBody) "1.2.3.4" none "e1" "i1" "a1" 0
        emptyStore).store.events.map (fun e => e.recipientId)) = [""] ∧
    ((forwardHandler locNY (⟨some "doc", some "", some "bob"⟩ : ForwardBody) "1.2.3.4" none "e1" "i1" "a1" 0
        emptyStore).response = Response.okJson) ∧
    (none : Option String) ≠ some "" := by
  exact ⟨rfl, rfl, rfl, by decide⟩

/-- The insert (and so the whole structured-report handler) fails when the
payload is missing `documentId` or `recipientId`: the `undefined` value is not
bindable, nothing is written. -/
theorem saveEvent_error_of_missing {ev : RawEvent} (fresh : String) (now : Int)
    (s : Store) (h : ev.documentId = none ∨ ev.recipientId = none) :
    saveEvent fresh now ev s = .error () := by
  rcases h with h | h
  · cases hrec : ev.recipientId <;> (unfold saveEvent; rw [h, hrec])
  · cases hdoc : ev.documentId <;> (unfold saveEvent; rw [hdoc, h])

/-- Claim C7 (amended): on every structured-report endpoint a payload missing
documentId or recipientId makes the event insert throw; the request fails with
the framework's server error (HTTP 500) — not a distinguished client
validation error — and no Event (and no Alert/Incident) is persisted. -/
theorem missing_ids_yield_server_error
    (gh : Int → Int) (lc : String → Option String)
    (ob : OpenBody) (pb : PageViewBody) (tb tb2 tb3 : TrackBody) (fb : ForwardBody)
    (ip : String) (ua : Option String) (f fa fi : String) (now : Int) (s : Store)
    (hob : ob.documentId = none ∨ ob.recipientId = none)
    (hpb : pb.documentId = none ∨ pb.recipientId = none)
    (htb : tb.documentId = none ∨ tb.recipientId = none)
    (htb2 : tb2.documentId = none ∨ tb2.recipientId = none)
    (htb3 : tb3.documentId = none ∨ tb3.recipientId = none)
    (hfb : fb.documentId = none ∨ fb.recipientId = none) :
    ((documentOpenHandler gh lc ob ip ua f now s).response = Response.serverError ∧
      (documentOpenHandler gh lc ob ip ua f now s).store = s) ∧
    ((pageViewHandler lc pb ip ua f now s).response = Response.serverError ∧
      (pageViewHandler lc pb ip ua f now s).store = s) ∧
    ((downloadHandler lc tb ip ua f fa now s).response = Response.serverError ∧
      (downloadHandler lc tb ip ua f fa now s).store = s) ∧
    ((printHandler lc tb2 ip ua f fa now s).response = Response.serverError ∧
      (printHandler lc tb2 ip ua f fa now s).store = s) ∧
    ((forwardHandler lc fb ip ua f fi fa now s).response = Response.serverError ∧
      (forwardHandler lc fb ip ua f fi fa now s).store = s) ∧
    ((copyHandler lc tb3 ip ua f now s).response = Response.serverError ∧
      (copyHandler lc tb3 ip ua f now s).store = s) := by
  refine ⟨?_, ?_, ?_, ?_, ?_, ?_⟩
  · simp only [documentOpenHandler]
    split
    · rename_i heq
      rw [saveEvent_error_of_missing f now s hob] at heq
      exact (Except.noConfusion heq)
    · exact ⟨rfl, rfl⟩
  · simp only [pageViewHandler]
    split
    · rename_i heq
      rw [saveEvent_error_of_missing f now s hpb] at heq
      exact (Except.noConfusion heq)
    · exact ⟨rfl, rfl⟩
  · simp only [downloadHandler]
    split
    · rename_i heq
      rw [saveEvent_error_of_missing f now s htb] at heq
      exact (Except.noConfusion heq)
    · exact ⟨rfl, rfl⟩
  · simp only [printHandler]
    split
    · rename_i heq
      rw [saveEvent_error_of_missing f now s htb2] at heq
      exact (Except.noConfusion heq)
    · exact ⟨rfl, rfl⟩
  · simp only [forwardHandler]
    split
    · rename_i heq
      rw [saveEvent_error_of_missing f now s hfb] at heq
      exact (Except.noConfusion heq)
    · exact ⟨rfl, rfl⟩
  · simp only [copyHandler]
    split
    · rename_i heq
      rw [saveEvent_error_of_missing f now s htb3] at heq
      exact (Except.noConfusion heq)
    · exact ⟨rfl, rfl⟩

/-- Witness for the C7 amended theorem at concrete bodies each missing a
required identifier. -/
theorem C7_amended_witness :
    (({ documentId := none, recipientId := some "r" : OpenBody }).documentId = none ∨
      ({ documentId := none, recipientId := some "r" : OpenBody }).recipientId = none) ∧
    ((documentOpenHandler ghDay locNY { documentId := none, recipientId := some "r" }
        "1.2.3.4" none "e1" 0 emptyStore).response = Response.serverError ∧
      (documentOpenHandler ghDay locNY { documentId := none, recipientId := some "r" }
        "1.2.3.4" none "e1" 0 emptyStore).store = emptyStore) ∧
    ((pageViewHandler locNY { documentId := some "d", recipientId := none }
        "1.2.3.4" none "e1" 0 emptyStore).response = Response.serverError ∧
      (pageViewHandler locNY { documentId := some "d", recipientId := none }
        "1.2.3.4" none "e1" 0 emptyStore).store = emptyStore) ∧
    ((downloadHandler locNY { documentId := none, recipientId := none }
        "1.2.3.4" none "e1" "a1" 0 emptyStore).response = Response.serverError ∧
      (downloadHandler locNY { documentId := none, recipientId := none }
        "1.2.3.4" none "e1" "a1" 0 emptyStore).store = emptyStore) ∧
    ((printHandler locNY { documentId := none, recipientId := some "r" }
        "1.2.3.4" none "e1" "a1" 0 emptyStore).response = Response.serverError ∧
      (printHandler locNY { documentId := none, recipientId := some "r" }
        "1.2.3.4" none "e1" "a1" 0 emptyStore).store = emptyStore) ∧
    ((forwardHandler locNY (⟨some "d", none, some "bob"⟩ : ForwardBody) "1.2.3.4" none "e1" "i1" "a1" 0
        emptyStore).response = Response.serverError ∧
      (forwardHandler locNY (⟨some "d", none, some "bob"⟩ : ForwardBody) "1.2.3.4" none "e1" "i1" "a1" 0
        emptyStore).store = emptyStore) ∧
    ((copyHandler locNY { documentId := none, recipientId := some "r" }
        "1.2.3.4" none "e1" 0 emptyStore).response = Response.serverError ∧
      (copyHandler locNY { documentId := none, recipientId := some "r" }
        "1.2.3.4" none "e1" 0 emptyStore).store = emptyStore) :=
  ⟨Or.inl rfl,
    (missing_ids_yield_server_error ghDay locNY
      { documentId := none, recipientId := some "r" }
      { documentId := some "d", recipientId := none }
      { documentId := none, recipientId := none }
      { documentId := none, recipientId := some "r" }
      { documentId := none, recipientId := some "r" }
      (⟨some "d", none, some "bob"⟩ : ForwardBody)
      "1.2.3.4" none "e1" "a1" "i1" 0 emptyStore
      (Or.inl rfl) (Or.inr rfl) (Or.inl rfl) (Or.inl rfl) (Or.inl rfl) (Or.inr rfl)).1,
    (missing_ids_yield_server_error ghDay locNY
      { documentId := none, recipientId := some "r" }
      { documentId := some "d", recipientId := none }
      { documentId := none, recipientId := none }
      { documentId := none, recipientId := some "r" }
      { documentId := none, recipientId := some "r" }
      (⟨some "d", none, some "bob"⟩ : ForwardBody)
      "1.2.3.4" none "e1" "a1" "i1" 0 emptyStore
      (Or.inl rfl) (Or.inr rfl) (Or.inl rfl) (Or.inl rfl) (Or.inl rfl) (Or.inr rfl)).2.1,
    (missing_ids_yield_server_error ghDay locNY
      { documentId := none, recipientId := some "r" }
      { documentId := some "d", recipientId := none }
      { documentId := none, recipientId := none }
      { documentId := none, recipientId := some "r" }
      { documentId := none, recipientId := some "r" }
      (⟨some "d", none, some "bob"⟩ : ForwardBody)
      "1.2.3.4" none "e1" "a1" "i1" 0 emptyStore
      (Or.inl rfl) (Or.inr rfl) (Or.inl rfl) (Or.inl rfl) (Or.inl rfl) (Or.inr rfl)).2.2.1,
    (missing_ids_yield_server_error ghDay locNY
      { documentId := none, recipientId := some "r" }
      { documentId := some "d", recipientId := none }
      { documentId := none, recipientId := none }
      { documentId := none, recipientId := some "r" }
      { documentId := none, recipientId := some "r" }
      (⟨some "d", none, some "bob"⟩ : ForwardBody)
      "1.2.3.4" none "e1" "a1" "i1" 0 emptyStore
      (Or.inl rfl) (Or.inr rfl) (Or.inl rfl) (Or.inl rfl) (Or.inl rfl) (Or.inr rfl)).2.2.2.1,
    (missing_ids_yield_server_error ghDay locNY
      { documentId := none, recipientId := some "r" }
      { documentId := some "d", recipientId := none }
      { documentId := none, recipientId := none }
      { documentId := none, recipientId := some "r" }
      { documentId := none, recipientId := some "r" }
      (⟨some "d", none, some "bob"⟩ : ForwardBody)
      "1.2.3.4" none "e1" "a1" "i1" 0 emptyStore
      (Or.inl rfl) (Or.inr rfl) (Or.inl rfl) (Or.inl rfl) (Or.inl rfl) (Or.inr rfl)).2.2.2.2.1,
    (missing_ids_yield_server_error ghDay locNY
      { documentId := none, recipientId := some "r" }
      { documentId := some "d", recipientId := none }
      { documentId := none, recipientId := none }
      { documentId := none, recipientId := some "r" }
      { documentId := none, recipientId := some "r" }
      (⟨some "d", none, some "bob"⟩ : ForwardBody)
      "1.2.3.4" none "e1" "a1" "i1" 0 emptyStore
      (Or.inl rfl) (Or.inr rfl) (Or.inl rfl) (Or.inl rfl) (Or.inl rfl) (Or.inr rfl)).2.2.2.2.2⟩

/-- Claim C7 counterexample: a document-open request missing documentId is
answered with the server error (Express's default 500 on the insert
exception), which is not a client error; no event is persisted. -/
theorem C7_counterexample :
    (documentOpenHandler ghDay locNY { documentId := none, recipientId := some "r" }
      "1.2.3.4" none "e1" 0 emptyStore).response = Response.serverError ∧
    Response.serverError ≠ Response.clientError ∧
    (documentOpenHandler ghDay locNY { documentId := none, recipientId := some "r" }
      "1.2.3.4" none "e1" 0 emptyStore).store.events = [] := by
  exact ⟨rfl, by decide, rfl⟩

/-- Claim C8 (amended): the pixel endpoint answers 200 with the 1×1 GIF and
cache-disabling headers whenever its event insert succeeds; but the handler
has no error guard, so a persistence failure aborts it with a server error and
no image (see the counterexample). -/
theorem pixel_returns_image_when_insert_succeeds
    (lc : String → Option String) (d r : String) (a ts : Option String)
    (ip : String) (ua : Option String) (fresh : String) (now : Int) (s : Store)
    (hv : dateValidMs (pixelTimestamp ts now) = true)
    (hfresh : fresh ∉ eventIds s) :
    (pixelHandler lc d r a ts ip ua fresh now s).response =
      Response.pixelImage 200 "image/gif" "no-cache, no-store, must-revalidate" pixelBytes := by
  have hfresh' : strOr (some fresh) fresh ∉ eventIds s := by rwa [strOr_some_self]
  simp only [pixelHandler]
  split
  · split
    · rfl
    · rename_i heq
      rw [saveEvent_ok_of fresh now s d r rfl rfl hfresh'] at heq
      exact (Except.noConfusion heq)
  · rename_i hcond
    exact absurd hv hcond

/-- Witness for the C8 amended theorem at a concrete pixel request. -/
theorem C8_amended_witness :
    (dateValidMs (pixelTimestamp none 0) = true) ∧ ("e1" ∉ eventIds emptyStore) ∧
    (pixelHandler locNY "d" "r" none none "1.2.3.4" none "e1" 0 emptyStore).response =
      Response.pixelImage 200 "image/gif" "no-cache, no-store, must-revalidate" pixelBytes :=
  ⟨by decide, by decide,
    pixel_returns_image_when_insert_succeeds locNY "d" "r" none none "1.2.3.4" none
      "e1" 0 emptyStore (by decide) (by decide)⟩

/-- Claim C8 counterexample: a pixel request whose client-supplied `ts`
parses to an epoch outside `Date`'s representable range makes
`new Date(parseInt(ts)).toISOString()` throw inside the unguarded handler, so
the client gets the 500 page and no image — refuting "the response is status
200 with the image payload regardless of the internal processing outcome". -/
theorem C8_counterexample :
    (pixelHandler locNY "d" "r" none (some "99999999999999999") "1.2.3.4" none "e1" 0
      emptyStore).response = Response.serverError ∧
    Response.serverError ≠
      Response.pixelImage 200 "image/gif" "no-cache, no-store, must-revalidate" pixelBytes := by
  exact ⟨rfl, by decide⟩

/-- Claim C10: the timestamp stored by a pixel-beacon ingestion equals the
client-supplied `ts` parsed as epoch milliseconds exactly when `parseInt(ts)`
yields a nonzero integer; when `ts` is absent, non-numeric, or parses to 0,
the stored timestamp is the ingestion clock instead. -/
theorem pixel_timestamp_stored
    (lc : String → Option String) (d r : String) (a ts : Option String)
    (ip : String) (ua : Option String) (fresh : String) (now : Int) (s : Store)
    (hv : dateValidMs (pixelTimestamp ts now) = true)
    (hfresh : fresh ∉ eventIds s) :
    ∃ e, (pixelHandler lc d r a ts ip ua fresh now s).store.events = s.events ++ [e] ∧
      ((∃ n, jsParseInt ts = some n ∧ n ≠ 0 ∧ e.timestamp = n) ∨
        ((jsParseInt ts = none ∨ jsParseInt ts = some 0) ∧ e.timestamp = now)) := by
  have hfresh' : strOr (some fresh) fresh ∉ eventIds s := by rwa [strOr_some_self]
  simp only [pixelHandler]
  split
  · split
    · rename_i e s1 heq
      obtain ⟨hs1, ⟨d2, r2, _, _, he⟩, _⟩ := saveEvent_ok_record heq
      subst hs1
      refine ⟨e, rfl, ?_⟩
      have hts : e.timestamp = pixelTimestamp ts now := by
        subst he
        rfl
      rw [hts]
      cases hp : jsParseInt ts with
      | none =>
        right
        refine ⟨Or.inl rfl, ?_⟩
        simp [pixelTimestamp, hp]
      | some n =>
        by_cases hn : n = 0
        · subst hn
          right
          refine ⟨Or.inr rfl, ?_⟩
          simp [pixelTimestamp, hp]
        · left
          refine ⟨n, rfl, hn, ?_⟩
          simp [pixelTimestamp, hp, hn]
    · rename_i heq
      rw [saveEvent_ok_of fresh now s d r rfl rfl hfresh'] at heq
      exact (Except.noConfusion heq)
  · rename_i hcond
    exact absurd hv hcond

/-- Witness for the C10 theorem at a concrete nonzero client timestamp. -/
theorem C10_witness :
    (dateValidMs (pixelTimestamp (some "1700000000000") 5) = true) ∧
    ("e1" ∉ eventIds emptyStore) ∧
    (∃ e, (pixelHandler locNY "d" "r" none (some "1700000000000") "1.2.3.4" none "e1" 5
        emptyStore).store.events = emptyStore.events ++ [e] ∧
      ((∃ n, jsParseInt (some "1700000000000") = some n ∧ n ≠ 0 ∧ e.timestamp = n) ∨
        ((jsParseInt (some "1700000000000") = none ∨
          jsParseInt (some "1700000000000") = some 0) ∧ e.timestamp = 5))) :=
  ⟨by decide, by decide,
    pixel_timestamp_stored locNY "d" "r" none (some "1700000000000") "1.2.3.4" none
      "e1" 5 emptyStore (by decide) (by decide)⟩

end Vittal
